import Mathlib

/-
Verification of the luxseed generational handle pool
(crates/lib/luxseed-utility/src/pool.rs) and the swapchain lifecycle /
structural-cache layers (crates/bin/luxseed-render-backend-test/src/render_system.rs,
crates/lib/luxseed-render-backend/src/vulkan/{swapchain,render_pass,framebuffer}.rs).

Modelling conventions:
* Rust u16 / u32 / usize values are Nats; arithmetic that can overflow is
  taken modulo 2^16 (release-mode two's-complement wrapping).
* The Rust Vec used as a stack (push/pop at the back) is modelled as a
  Lean list whose HEAD is the top of the stack, i.e. the reverse of the
  Vec's memory order.
* Fallible operations return Except; `malloc` additionally takes fuel and
  returns `none` when the fuel runs out, so that non-termination of the
  Rust recursion is observable as `none` for every fuel.
* Rust panics (with_size size check, double_size max-size check) are
  Except.error values.
-/

set_option maxRecDepth 4000

deriving instance DecidableEq for Except

namespace Luxseed

/-- U16_MAX models Rust's u16::MAX. -/
def U16_MAX : Nat := 65535

/-- Handle<T> from pool.rs: a 16-bit index and a 16-bit generation.
The phantom type parameter is erased in the model. -/
structure Handle where
  index : Nat
  generation : Nat
deriving DecidableEq, Repr

/-- Default::default() for Handle<T>: both fields are u16::MAX. -/
def Handle.default : Handle := { index := U16_MAX, generation := U16_MAX }

/-- A pooled item: the `Handled` trait gives every item a handle field
(get_handle/set_handle); the rest of the item is an arbitrary payload. -/
structure Item (α : Type) where
  handle : Option Handle
  payload : α
deriving DecidableEq, Repr

/-- Pool<T> from pool.rs.  `free_indices` has the stack top at the head
(the reverse of the Rust Vec order).  `fp_init` is the stored init closure,
modelled as the value it constructs. -/
structure Pool (α : Type) where
  items : List (Item α)
  generations : List Nat
  free_indices : List Nat
  fp_init : Item α
deriving DecidableEq, Repr

/-- Helper for Rust's in-place update through an index: replaces element i
by f applied to it, and is the identity when i is out of range. -/
def listModify {α : Type} (l : List α) (i : Nat) (f : α → α) : List α :=
  match l[i]? with
  | some a => l.set i (f a)
  | none => l

/-- Pool::with_size: panics ("exceeds max size") when size > u16::MAX;
otherwise items are size init-constructed slots, generations all 0, and the
free stack is 0..size pushed then reversed, so its top is index 0. -/
def with_size {α : Type} (size : Nat) (init : Item α) : Except String (Pool α) :=
  if size > U16_MAX then
    Except.error "exceeds max size"
  else
    Except.ok
      { items := List.replicate size init
        generations := List.replicate size 0
        free_indices := List.range size
        fp_init := init }

/-- Pool::is_match: the handle's index is looked up in `generations` with the
checked accessor; a hit validates iff the stored generation equals the
handle's generation. -/
def Pool.is_match {α : Type} (p : Pool α) (h : Handle) : Bool :=
  match p.generations[h.index]? with
  | some g => g == h.generation
  | none => false

/-- Pool::get: Some only when is_match; then reads the slot through the
checked accessor (never indexes out of range). -/
def Pool.get {α : Type} (p : Pool α) (h : Handle) : Option (Item α) :=
  if p.is_match h then p.items[h.index]? else none

/-- Pool::get_mut: same lookup as get (the returned mutable reference is
modelled by Pool.write below). -/
def Pool.get_mut {α : Type} (p : Pool α) (h : Handle) : Option (Item α) :=
  if p.is_match h then p.items[h.index]? else none

/-- A caller writing a new payload through the mutable reference obtained
from get_mut; a no-op when get_mut returns None. -/
def Pool.write {α : Type} (p : Pool α) (h : Handle) (v : α) : Pool α :=
  if p.is_match h then
    { p with items := listModify p.items h.index (fun it => { it with payload := v }) }
  else p

/-- Pool::free: when the handle matches, clears the slot's stored handle
(set_handle(None)), pushes the index on the free stack, and increments the
stored generation (u16 `+= 1`, modelled with release-mode wrapping modulo
2^16; a debug build would panic on overflow instead). -/
def Pool.free {α : Type} (p : Pool α) (h : Handle) : Pool α :=
  if p.is_match h then
    { p with
      items := listModify p.items h.index (fun it => { it with handle := none })
      free_indices := h.index :: p.free_indices
      generations := p.generations.set h.index ((p.generations.getD h.index 0 + 1) % 65536) }
  else p

/-- Pool::double_size: panics when the pool already has u16::MAX slots;
otherwise resizes to min(old*2, u16::MAX) (resize semantics: truncate or
extend with the default), pushes the new indices in increasing order onto
the free stack and then reverses the whole stack. -/
def Pool.double_size {α : Type} (p : Pool α) : Except String (Pool α) :=
  let old_len := p.generations.length
  if old_len == U16_MAX then
    Except.error "Pool is already at max size"
  else
    let new_len := min (old_len * 2) U16_MAX
    Except.ok
      { items := p.items.take new_len ++ List.replicate (new_len - p.items.length) p.fp_init
        generations := p.generations.take new_len ++ List.replicate (new_len - p.generations.length) 0
        free_indices :=
          (List.foldl (fun l i => i :: l) p.free_indices
            (List.range' old_len (new_len - old_len))).reverse
        fp_init := p.fp_init }

/-- Pool::malloc: pops the top free index; the returned handle carries the
slot's CURRENT stored generation; the slot's handle field is set to the new
handle.  With an empty free stack it grows the pool and retries.  The fuel
argument makes the Rust recursion total; `none` means the fuel ran out. -/
def Pool.malloc {α : Type} (fuel : Nat) (p : Pool α) : Option (Except String (Handle × Pool α)) :=
  match fuel with
  | 0 => none
  | fuel' + 1 =>
    match p.free_indices with
    | index :: rest =>
      let handle : Handle := { index := index, generation := p.generations.getD index 0 }
      some (Except.ok (handle,
        { p with
          free_indices := rest
          items := listModify p.items index (fun it => { it with handle := some handle }) }))
    | [] =>
      match p.double_size with
      | Except.error e => some (Except.error e)
      | Except.ok p2 => Pool.malloc fuel' p2

/-- Iterated malloc: performs k allocations in sequence (each with the given
fuel), collecting the issued handles in order. -/
def Pool.malloc_n {α : Type} (fuel : Nat) : Nat → Pool α → Option (Except String (List Handle × Pool α))
  | 0, p => some (Except.ok ([], p))
  | k + 1, p =>
    match p.malloc fuel with
    | none => none
    | some (Except.error e) => some (Except.error e)
    | some (Except.ok (h, p2)) =>
      match Pool.malloc_n fuel k p2 with
      | none => none
      | some (Except.error e) => some (Except.error e)
      | some (Except.ok (hs, p3)) => some (Except.ok (h :: hs, p3))

/-- States reachable by a sequence of with_size, malloc and free calls. -/
inductive Reachable {α : Type} : Pool α → Prop where
  | init (size : Nat) (it : Item α) (p : Pool α) :
      with_size size it = Except.ok p → Reachable p
  | step_malloc (p p2 : Pool α) (fuel : Nat) (h : Handle) :
      Reachable p → p.malloc fuel = some (Except.ok (h, p2)) → Reachable p2
  | step_free (p : Pool α) (h : Handle) :
      Reachable p → Reachable (p.free h)

/-- The structural pool invariant maintained by every operation. -/
def PoolInv {α : Type} (p : Pool α) : Prop :=
  p.generations.length = p.items.length ∧
  p.generations.length ≤ U16_MAX ∧
  ∀ i ∈ p.free_indices, i < p.generations.length

/-- A concrete item for test pools. -/
def item0 : Item Nat := { handle := none, payload := 0 }

/-- The pool with_size 1 item0 produces. -/
def pool1 : Pool Nat :=
  { items := [item0], generations := [0], free_indices := [0], fp_init := item0 }

/-- State of pool1 after its first malloc. -/
def pool1A : Pool Nat :=
  { items := [{ handle := some { index := 0, generation := 0 }, payload := 0 }]
    generations := [0]
    free_indices := []
    fp_init := item0 }

/-- The pool with_size 2 item0 produces. -/
def pool2 : Pool Nat :=
  { items := [item0, item0]
    generations := [0, 0]
    free_indices := [0, 1]
    fp_init := item0 }

/-- The fresh pool with_size n init produces (for n within the u16 limit). -/
def c2pool (α : Type) (n : Nat) (init : Item α) : Pool α :=
  { items := List.replicate n init
    generations := List.replicate n 0
    free_indices := List.range n
    fp_init := init }

/-- Slot array after the first malloc of the C2 scenario. -/
def c2items1 (α : Type) (n : Nat) (init : Item α) : List (Item α) :=
  listModify (List.replicate n init) 0
    (fun it => { it with handle := some { index := 0, generation := 0 } })

/-- Slot array after the second malloc of the C2 scenario. -/
def c2items2 (α : Type) (n : Nat) (init : Item α) : List (Item α) :=
  listModify (c2items1 α n init) 1
    (fun it => { it with handle := some { index := 1, generation := 0 } })

/-- Slot array after free(h0) of the C2 scenario. -/
def c2items3 (α : Type) (n : Nat) (init : Item α) : List (Item α) :=
  listModify (c2items2 α n init) 0 (fun it => { it with handle := none })

/-- Slot array after the reusing malloc of the C2 scenario. -/
def c2items4 (α : Type) (n : Nat) (init : Item α) : List (Item α) :=
  listModify (c2items3 α n init) 0
    (fun it => { it with handle := some { index := 0, generation := 1 } })

/-- Pool state after the first malloc of the C2 scenario. -/
def c2p1 (α : Type) (n : Nat) (init : Item α) : Pool α :=
  { items := c2items1 α n init
    generations := List.replicate n 0
    free_indices := 1 :: List.range' 2 (n - 2)
    fp_init := init }

/-- Pool state after the second malloc of the C2 scenario. -/
def c2p2 (α : Type) (n : Nat) (init : Item α) : Pool α :=
  { items := c2items2 α n init
    generations := List.replicate n 0
    free_indices := List.range' 2 (n - 2)
    fp_init := init }

/-- Pool state after free(h0) of the C2 scenario. -/
def c2p3 (α : Type) (n : Nat) (init : Item α) : Pool α :=
  { items := c2items3 α n init
    generations := (List.replicate n 0).set 0 1
    free_indices := 0 :: List.range' 2 (n - 2)
    fp_init := init }

/-- Pool state after the reusing malloc of the C2 scenario. -/
def c2p4 (α : Type) (n : Nat) (init : Item α) : Pool α :=
  { items := c2items4 α n init
    generations := (List.replicate n 0).set 0 1
    free_indices := List.range' 2 (n - 2)
    fp_init := init }

/-- The (degenerate) pool with_size 0 item0 produces. -/
def poolEmpty : Pool Nat :=
  { items := [], generations := [], free_indices := [], fp_init := item0 }

/-- One-slot pool whose slot 0 sits at the maximum stored generation. -/
def poolWrap : Pool Nat :=
  { items := [item0], generations := [U16_MAX], free_indices := [], fp_init := item0 }

/-- C8 scenario: one-slot pool after malloc, write(7) through get_mut, free. -/
def c8freed : Pool Nat :=
  { items := [{ handle := none, payload := 7 }]
    generations := [1]
    free_indices := [0]
    fp_init := item0 }

/-- C8 scenario: state after the reusing malloc; the payload written before
the free is still there. -/
def c8reused : Pool Nat :=
  { items := [{ handle := some { index := 0, generation := 1 }, payload := 7 }]
    generations := [1]
    free_indices := []
    fp_init := item0 }

/-! Vulkan swapchain / render-system / structural-cache layer. -/

/-- usize::MAX on the 64-bit target: the sentinel image index produced by
the swapchain layer for ERROR_OUT_OF_DATE_KHR. -/
def USIZE_MAX : Nat := 2 ^ 64 - 1

/-- The vk::Result error codes the swapchain layer distinguishes. -/
inductive VkErr where
  | outOfDateKhr
  | other (code : Int)
deriving DecidableEq, Repr

/-- VulkanSwapchain::acquire_next_image (swapchain.rs:165-185): forwards the
driver's Ok result as (index as usize, suboptimal), maps
ERROR_OUT_OF_DATE_KHR to Ok((usize::MAX, false)), propagates other errors. -/
def acquire_next_image (driver_ret : Except VkErr (Nat × Bool)) : Except VkErr (Nat × Bool) :=
  match driver_ret with
  | Except.ok (image_index, suboptimal) => Except.ok (image_index, suboptimal)
  | Except.error VkErr.outOfDateKhr => Except.ok (USIZE_MAX, false)
  | Except.error e => Except.error e

/-- Backend calls issued by the render system, recorded as a trace.  Handles
are modelled as plain Nat identifiers. -/
inductive Event where
  | wait_for_fences (fences : List Nat)
  | acquire_image (swapchain semaphore : Nat)
  | reset_fences (fences : List Nat)
  | device_wait_idle
  | destroy_framebuffer (fb : Nat)
  | destroy_image (img : Nat)
  | destroy_swapchain (sc : Nat)
  | create_swapchain (w h : Nat)
  | create_image (w h : Nat)
  | create_image_view (img : Nat)
  | transition_image_layout (img : Nat)
  | get_back_buffer (sc i : Nat)
  | create_framebuffer (rp : Nat) (views : List Nat)
  | queue_present (queue sc imgIdx : Nat) (waits : List Nat)
deriving DecidableEq, Repr

/-- True exactly on the three destroy calls of cleanup_swapchain, the ones
that destroy swapchain-owned objects. -/
def Event.isDestroy : Event → Bool
  | Event.destroy_framebuffer _ => true
  | Event.destroy_image _ => true
  | Event.destroy_swapchain _ => true
  | _ => false

def Event.isDeviceWaitIdle : Event → Bool
  | Event.device_wait_idle => true
  | _ => false

def Event.isResetFences : Event → Bool
  | Event.reset_fences _ => true
  | _ => false

/-- The RenderSystem fields relevant to frame pacing (render_system.rs). -/
structure RenderSystem where
  image_index : Nat
  frame : Nat
  max_frames_in_flight : Nat
  in_flight_fences : List Nat
  image_availables : List Nat
  render_finisheds : List Nat
  swapchain : Nat
  swapchain_render_pass : Nat
  swapchain_framebuffers : List Nat
  depth_image : Nat
  depth_image_view : Nat
  command_pool : Nat
  graphics_queue : Nat
  surface : Nat
deriving DecidableEq, Repr

def RenderSystem.get_in_flight_fence (s : RenderSystem) : Nat :=
  s.in_flight_fences.getD s.frame 0

def RenderSystem.get_image_available_semaphore (s : RenderSystem) : Nat :=
  s.image_availables.getD s.frame 0

def RenderSystem.get_render_finished_semaphore (s : RenderSystem) : Nat :=
  s.render_finisheds.getD s.frame 0

/-- Driver responses consumed during one begin_frame / end_frame /
recreate_swapchain cycle: the raw acquire result, the suboptimal flag of
queue_present, and the fresh object handles the create calls return. -/
structure Driver where
  acquire_ret : Except VkErr (Nat × Bool)
  present_suboptimal : Bool
  new_swapchain : Nat
  new_depth_image : Nat
  new_depth_image_view : Nat
  back_buffer : Nat → Nat
  new_view : Nat → Nat
  new_framebuffer : Nat → Nat

/-- RenderSystem::cleanup_swapchain (render_system.rs:196-203): destroys
every swapchain framebuffer, then the depth image, then the swapchain; it
mutates no RenderSystem field. -/
def cleanup_swapchain (s : RenderSystem) : List Event :=
  s.swapchain_framebuffers.map Event.destroy_framebuffer ++
    [Event.destroy_image s.depth_image, Event.destroy_swapchain s.swapchain]

/-- Backend calls of the framebuffer-rebuild loop ending
recreate_swapchain: per frame slot, fetch the back buffer, create its view,
create the framebuffer over [color view, new depth view]. -/
def rebuild_framebuffer_events (d : Driver) (s : RenderSystem) : List Event :=
  ((List.range s.max_frames_in_flight).map (fun i =>
    [Event.get_back_buffer d.new_swapchain i,
     Event.create_image_view (d.back_buffer i),
     Event.create_framebuffer s.swapchain_render_pass
       [d.new_view i, d.new_depth_image_view]])).flatten

/-- RenderSystem::recreate_swapchain (render_system.rs:205-248), success
path: device_wait_idle first, then cleanup_swapchain, then create the new
swapchain, the depth image and view (create_depth), transition the depth
layout, and rebuild one framebuffer per frame slot.  Every backend call can
fail with `?`, which only truncates the call sequence, so the ordering facts
proved below hold for every prefix of the trace as well. -/
def recreate_swapchain (d : Driver) (s : RenderSystem) (width height : Nat) :
    RenderSystem × List Event :=
  ({ s with
      swapchain := d.new_swapchain
      depth_image := d.new_depth_image
      depth_image_view := d.new_depth_image_view
      swapchain_framebuffers := (List.range s.max_frames_in_flight).map d.new_framebuffer },
   Event.device_wait_idle ::
     (cleanup_swapchain s ++
       ([Event.create_swapchain width height,
         Event.create_image width height,
         Event.create_image_view d.new_depth_image,
         Event.transition_image_layout d.new_depth_image] ++
        rebuild_framebuffer_events d s)))

/-- RenderSystem::begin_frame (render_system.rs:141-160): wait on the
current slot's fence; acquire the next image through the swapchain layer's
sentinel mapping; on the sentinel, recreate the swapchain and return false
(no fence reset, image_index untouched); otherwise record the acquired image
index, reset the current slot's fence and return true.  Driver errors other
than out-of-date propagate via `?`. -/
def begin_frame (d : Driver) (s : RenderSystem) (width height : Nat) :
    Except VkErr (Bool × RenderSystem) × List Event :=
  let ev_wait := Event.wait_for_fences [s.get_in_flight_fence]
  let ev_acq := Event.acquire_image s.swapchain s.get_image_available_semaphore
  match acquire_next_image d.acquire_ret with
  | Except.error e => (Except.error e, [ev_wait, ev_acq])
  | Except.ok (image_index, _suboptimal) =>
    if image_index == USIZE_MAX then
      let r := recreate_swapchain d s width height
      (Except.ok (false, r.1), ev_wait :: ev_acq :: r.2)
    else
      (Except.ok (true, { s with image_index := image_index }),
       [ev_wait, ev_acq, Event.reset_fences [s.get_in_flight_fence]])

/-- RenderSystem::end_frame (render_system.rs:162-179): present waiting on
the current slot's render-finished semaphore; recreate the swapchain when
the present reported suboptimal or the caller forced it; advance the frame
slot modulo max_frames_in_flight. -/
def end_frame (d : Driver) (s : RenderSystem) (recreate : Bool) (width height : Nat) :
    RenderSystem × List Event :=
  let ev_present := Event.queue_present s.graphics_queue s.swapchain s.image_index
    [s.get_render_finished_semaphore]
  if d.present_suboptimal || recreate then
    let r := recreate_swapchain d s width height
    ({ r.1 with frame := (r.1.frame + 1) % r.1.max_frames_in_flight },
     ev_present :: r.2)
  else
    ({ s with frame := (s.frame + 1) % s.max_frames_in_flight }, [ev_present])

/-- MAX_RENDER_TARGETS (define.rs). -/
def MAX_RENDER_TARGETS : Nat := 8

/-- VulkanRenderPassOutput (render_pass.rs): the structural key of the
render pass cache.  vk enum/handle values are modelled as Nats; the
[T; MAX_RENDER_TARGETS] arrays as lists. -/
structure VulkanRenderPassOutput where
  num_colors : Nat
  color_formats : List Nat
  color_final_layouts : List Nat
  color_load : List Nat
  color_samples : List Nat
  depth_stencil_format : Nat
  depth_stencil_final_layout : Nat
  depth_stencil_samples : Nat
  depth_load : Nat
  stencil_load : Nat
deriving DecidableEq, Repr

/-- VulkanFramebufferDesc (framebuffer.rs): the structural key of the
framebuffer cache. -/
structure VulkanFramebufferDesc where
  render_pass : Nat
  num_attachments : Nat
  views : List Nat
  width : Nat
  height : Nat
  layers : Nat
deriving DecidableEq, Repr

/-- The two structural caches of VulkanDevice, plus a supply of fresh raw
backend objects modelling the driver's create calls. -/
structure VulkanDeviceCaches where
  render_pass_cache : List (VulkanRenderPassOutput × Nat)
  framebuffer_cache : List (VulkanFramebufferDesc × Nat)
  next_raw : Nat
deriving DecidableEq, Repr

/-- HashMap::get, modelled on an association list with structural (derived
Eq/Hash) key equality. -/
def cacheGet {κ : Type} [DecidableEq κ] : List (κ × Nat) → κ → Option Nat
  | [], _ => none
  | (k2, v) :: rest, k => if k2 = k then some v else cacheGet rest k

/-- VulkanDevice::get_or_create_render_pass (render_pass.rs:46-56): a cache
hit returns the cached raw object with the state unchanged; a miss creates a
raw object through the driver (modelled as the next fresh id) and inserts it
under the descriptor. -/
def get_or_create_render_pass (s : VulkanDeviceCaches) (layout : VulkanRenderPassOutput) :
    Nat × VulkanDeviceCaches :=
  match cacheGet s.render_pass_cache layout with
  | some rp => (rp, s)
  | none =>
    let new_rp := s.next_raw
    (new_rp,
     { s with
       render_pass_cache := (layout, new_rp) :: s.render_pass_cache
       next_raw := s.next_raw + 1 })

/-- VulkanDevice::get_or_create_framebuffer (framebuffer.rs:87-97). -/
def get_or_create_framebuffer (s : VulkanDeviceCaches) (desc : VulkanFramebufferDesc) :
    Nat × VulkanDeviceCaches :=
  match cacheGet s.framebuffer_cache desc with
  | some fb => (fb, s)
  | none =>
    let new_fb := s.next_raw
    (new_fb,
     { s with
       framebuffer_cache := (desc, new_fb) :: s.framebuffer_cache
       next_raw := s.next_raw + 1 })

/-- A later sequence of calls into either cache. -/
inductive CacheCall where
  | rp (layout : VulkanRenderPassOutput)
  | fb (desc : VulkanFramebufferDesc)

def runCalls (calls : List CacheCall) (s : VulkanDeviceCaches) : VulkanDeviceCaches :=
  match calls with
  | [] => s
  | CacheCall.rp l :: rest => runCalls rest (get_or_create_render_pass s l).2
  | CacheCall.fb dsc :: rest => runCalls rest (get_or_create_framebuffer s dsc).2

/-- Concrete driver whose acquire reports the swapchain out of date. -/
def drvOod : Driver :=
  { acquire_ret := Except.error VkErr.outOfDateKhr
    present_suboptimal := true
    new_swapchain := 100
    new_depth_image := 101
    new_depth_image_view := 102
    back_buffer := fun i => 110 + i
    new_view := fun i => 120 + i
    new_framebuffer := fun i => 130 + i }

/-- Concrete driver whose acquire succeeds with image index 1. -/
def drvOk : Driver :=
  { acquire_ret := Except.ok (1, false)
    present_suboptimal := true
    new_swapchain := 100
    new_depth_image := 101
    new_depth_image_view := 102
    back_buffer := fun i => 110 + i
    new_view := fun i => 120 + i
    new_framebuffer := fun i => 130 + i }

/-- A concrete two-slot render system state. -/
def rs0 : RenderSystem :=
  { image_index := 0
    frame := 0
    max_frames_in_flight := 2
    in_flight_fences := [10, 11]
    image_availables := [12, 13]
    render_finisheds := [14, 15]
    swapchain := 1
    swapchain_render_pass := 2
    swapchain_framebuffers := [3, 4]
    depth_image := 5
    depth_image_view := 6
    command_pool := 7
    graphics_queue := 8
    surface := 9 }

/-- The empty device cache state. -/
def cache0 : VulkanDeviceCaches :=
  { render_pass_cache := [], framebuffer_cache := [], next_raw := 0 }

/-- A concrete render pass descriptor (one color target, depth-clear). -/
def rpd0 : VulkanRenderPassOutput :=
  { num_colors := 1
    color_formats := [50, 0, 0, 0, 0, 0, 0, 0]
    color_final_layouts := [1002, 0, 0, 0, 0, 0, 0, 0]
    color_load := [1, 0, 0, 0, 0, 0, 0, 0]
    color_samples := [1, 0, 0, 0, 0, 0, 0, 0]
    depth_stencil_format := 126
    depth_stencil_final_layout := 3
    depth_stencil_samples := 1
    depth_load := 1
    stencil_load := 2 }

/-- A concrete framebuffer descriptor. -/
def fbd0 : VulkanFramebufferDesc :=
  { render_pass := 0
    num_attachments := 2
    views := [5, 6, 0, 0, 0, 0, 0, 0, 0]
    width := 800
    height := 600
    layers := 1 }

/-- cache0 after a get_or_create_render_pass miss on rpd0. -/
def cache1 : VulkanDeviceCaches :=
  { render_pass_cache := [(rpd0, 0)], framebuffer_cache := [], next_raw := 1 }

/-! Basic list and pool lemmas. -/

theorem succ_mod_u16_ne (g : Nat) : (g + 1) % 65536 ≠ g := by omega

theorem listModify_length {α : Type} (l : List α) (i : Nat) (f : α → α) :
    (listModify l i f).length = l.length := by
  unfold listModify
  cases h : l[i]? with
  | none => rfl
  | some a => simp

theorem listModify_getElem? {α : Type} (l : List α) (i j : Nat) (f : α → α) :
    (listModify l i f)[j]? = if j = i then l[i]?.map f else l[j]? := by
  unfold listModify
  cases h : l[i]? with
  | none =>
    by_cases hji : j = i
    · subst hji; simp [h]
    · simp [hji]
  | some a =>
    have hlen : i < l.length := by
      rcases List.getElem?_eq_some.1 h with ⟨hl, _⟩; exact hl
    by_cases hji : j = i
    · subst hji
      rw [List.getElem?_set, if_pos rfl, if_pos hlen, h]
      simp
    · have hij : i ≠ j := fun hx => hji hx.symm
      rw [List.getElem?_set, if_neg hij, if_neg hji]

theorem is_match_iff {α : Type} (p : Pool α) (h : Handle) :
    p.is_match h = true ↔ p.generations[h.index]? = some h.generation := by
  unfold Pool.is_match
  cases hg : p.generations[h.index]? with
  | none => simp
  | some g => simp [beq_iff_eq]

theorem is_match_false_iff {α : Type} (p : Pool α) (h : Handle) :
    p.is_match h = false ↔ p.generations[h.index]? ≠ some h.generation := by
  rw [ne_eq, ← is_match_iff]
  cases p.is_match h <;> simp

/-! Invariant preservation. -/

theorem with_size_inv {α : Type} (size : Nat) (it : Item α) (p : Pool α)
    (hp : with_size size it = Except.ok p) : PoolInv p := by
  unfold with_size at hp
  by_cases hs : size > U16_MAX
  · simp [hs] at hp
  · simp [hs] at hp
    subst hp
    refine ⟨by simp, by simpa using Nat.le_of_not_lt hs, ?_⟩
    intro i hi
    simpa using List.mem_range.1 (by simpa using hi)

theorem free_inv {α : Type} (p : Pool α) (h : Handle) (hp : PoolInv p) :
    PoolInv (p.free h) := by
  obtain ⟨hlen, hmax, hfree⟩ := hp
  unfold Pool.free
  by_cases hm : p.is_match h
  · have hidx : h.index < p.generations.length := by
      rcases List.getElem?_eq_some.1 ((is_match_iff p h).1 hm) with ⟨hl, _⟩; exact hl
    simp only [hm, if_pos]
    refine ⟨?_, ?_, ?_⟩
    · simp [listModify_length, hlen]
    · simpa using hmax
    · intro i hi
      simp only [List.length_set]
      rcases List.mem_cons.1 hi with hieq | himem
      · omega
      · exact hfree i himem
  · simp only [hm, Bool.false_eq_true, if_false]
    exact ⟨hlen, hmax, hfree⟩

theorem mem_foldl_cons {α : Type} (r : List α) (init : List α) (x : α) :
    x ∈ List.foldl (fun l i => i :: l) init r ↔ x ∈ init ∨ x ∈ r := by
  induction r generalizing init with
  | nil => simp
  | cons a r ih =>
    simp only [List.foldl_cons, ih, List.mem_cons]
    constructor
    · rintro (⟨rfl | hx⟩ | hx) <;> simp_all
    · rintro (hx | ⟨rfl | hx⟩) <;> simp_all

theorem resize_length {α : Type} (l : List α) (n : Nat) (d : α) (h : l.length ≤ n) :
    (l.take n ++ List.replicate (n - l.length) d).length = n := by
  simp only [List.length_append, List.length_take, List.length_replicate]
  omega

theorem resize_getElem?_lo {α : Type} (l : List α) (n i : Nat) (d : α)
    (h : i < l.length) (h2 : l.length ≤ n) :
    (l.take n ++ List.replicate (n - l.length) d)[i]? = l[i]? := by
  rw [List.getElem?_append_left (by simp only [List.length_take]; omega)]
  rw [List.getElem?_take, if_pos (by omega)]

theorem resize_getElem?_hi {α : Type} (l : List α) (n i : Nat) (d : α)
    (h : l.length ≤ i) (h2 : i < n) :
    (l.take n ++ List.replicate (n - l.length) d)[i]? = some d := by
  rw [List.getElem?_append_right (by simp only [List.length_take]; omega)]
  rw [List.getElem?_replicate, if_pos (by simp only [List.length_take]; omega)]

/-- Unfolded success case of double_size. -/
theorem double_size_eq {α : Type} (p : Pool α) (hfull : p.generations.length ≠ U16_MAX) :
    p.double_size = Except.ok
      { items := p.items.take (min (p.generations.length * 2) U16_MAX) ++
          List.replicate (min (p.generations.length * 2) U16_MAX - p.items.length) p.fp_init
        generations := p.generations.take (min (p.generations.length * 2) U16_MAX) ++
          List.replicate (min (p.generations.length * 2) U16_MAX - p.generations.length) 0
        free_indices :=
          (List.foldl (fun l i => i :: l) p.free_indices
            (List.range' p.generations.length
              (min (p.generations.length * 2) U16_MAX - p.generations.length))).reverse
        fp_init := p.fp_init } := by
  unfold Pool.double_size
  simp [hfull]

theorem double_size_ok {α : Type} (p p2 : Pool α)
    (hok : p.double_size = Except.ok p2) (hinv : PoolInv p) :
    p.generations.length < U16_MAX ∧
    p2.generations.length = min (p.generations.length * 2) U16_MAX ∧
    p2.items.length = p2.generations.length ∧
    p2.fp_init = p.fp_init ∧
    (∀ i, i < p.generations.length → p2.generations[i]? = p.generations[i]?) ∧
    (∀ i, i < p.items.length → p2.items[i]? = p.items[i]?) ∧
    (∀ i, p.generations.length ≤ i → i < p2.generations.length → p2.generations[i]? = some 0) ∧
    (∀ i, p.items.length ≤ i → i < p2.items.length → p2.items[i]? = some p.fp_init) ∧
    (∀ x, x ∈ p2.free_indices ↔
      (x ∈ p.free_indices ∨ (p.generations.length ≤ x ∧ x < p2.generations.length))) := by
  obtain ⟨hlen, hmax, _⟩ := hinv
  by_cases hfull : p.generations.length = U16_MAX
  · unfold Pool.double_size at hok
    simp [hfull] at hok
  · rw [double_size_eq p hfull] at hok
    injection hok with hok2
    subst hok2
    have hlt : p.generations.length < U16_MAX := Nat.lt_of_le_of_ne hmax hfull
    have hge : p.generations.length ≤ min (p.generations.length * 2) U16_MAX := by omega
    have hgei : p.items.length ≤ min (p.generations.length * 2) U16_MAX := by omega
    have hglen : (p.generations.take (min (p.generations.length * 2) U16_MAX) ++
        List.replicate (min (p.generations.length * 2) U16_MAX - p.generations.length) 0).length
        = min (p.generations.length * 2) U16_MAX := resize_length _ _ _ hge
    have hilen : (p.items.take (min (p.generations.length * 2) U16_MAX) ++
        List.replicate (min (p.generations.length * 2) U16_MAX - p.items.length) p.fp_init).length
        = min (p.generations.length * 2) U16_MAX := resize_length _ _ _ hgei
    refine ⟨hlt, hglen, ?_, rfl, ?_, ?_, ?_, ?_, ?_⟩
    · rw [hilen, hglen]
    · intro i hi
      exact resize_getElem?_lo _ _ _ _ hi hge
    · intro i hi
      exact resize_getElem?_lo _ _ _ _ hi hgei
    · intro i hi1 hi2
      rw [hglen] at hi2
      exact resize_getElem?_hi _ _ _ _ hi1 hi2
    · intro i hi1 hi2
      rw [hilen] at hi2
      exact resize_getElem?_hi _ _ _ _ hi1 hi2
    · intro x
      simp only [List.mem_reverse, mem_foldl_cons, List.mem_range', hglen]
      constructor
      · rintro (hx | ⟨i, hi, rfl⟩)
        · exact Or.inl hx
        · exact Or.inr ⟨by omega, by omega⟩
      · rintro (hx | ⟨h1, h2⟩)
        · exact Or.inl hx
        · exact Or.inr ⟨x - p.generations.length, by omega, by omega⟩

theorem double_size_inv {α : Type} (p p2 : Pool α)
    (hinv : PoolInv p) (hok : p.double_size = Except.ok p2) : PoolInv p2 := by
  obtain ⟨hlt, hlen2, hitems2, _, _, _, _, _, hmem⟩ := double_size_ok p p2 hok hinv
  obtain ⟨hlen, hmax, hfree⟩ := hinv
  refine ⟨hitems2.symm, by omega, ?_⟩
  intro i hi
  rcases (hmem i).1 hi with hx | hx
  · have := hfree i hx
    omega
  · omega

/-- Success case of malloc when the free stack is nonempty. -/
theorem malloc_pop {α : Type} (fuel : Nat) (p : Pool α) (index : Nat) (rest : List Nat)
    (hf : p.free_indices = index :: rest) :
    p.malloc (fuel + 1) = some (Except.ok
      ({ index := index, generation := p.generations.getD index 0 },
       { p with
         free_indices := rest
         items := listModify p.items index
           (fun it => { it with
             handle := some { index := index, generation := p.generations.getD index 0 } }) })) := by
  unfold Pool.malloc
  rw [hf]

/-- Grow case of malloc: empty free stack defers to double_size then retries. -/
theorem malloc_grow {α : Type} (fuel : Nat) (p p2 : Pool α)
    (hf : p.free_indices = []) (hds : p.double_size = Except.ok p2) :
    p.malloc (fuel + 1) = p2.malloc fuel := by
  conv_lhs => unfold Pool.malloc
  rw [hf, hds]

/-- Grow case of malloc when the pool is already at max size. -/
theorem malloc_grow_fail {α : Type} (fuel : Nat) (p : Pool α) (e : String)
    (hf : p.free_indices = []) (hds : p.double_size = Except.error e) :
    p.malloc (fuel + 1) = some (Except.error e) := by
  unfold Pool.malloc
  rw [hf, hds]

/-- What a successful malloc guarantees: the invariant is kept, the slot
array only grows, existing generations are untouched, and the issued handle
carries exactly the stored generation of its slot. -/
theorem malloc_ok_spec {α : Type} (fuel : Nat) (p p2 : Pool α) (h : Handle)
    (hinv : PoolInv p) (hok : p.malloc fuel = some (Except.ok (h, p2))) :
    PoolInv p2 ∧
    p.generations.length ≤ p2.generations.length ∧
    (∀ i, i < p.generations.length → p2.generations[i]? = p.generations[i]?) ∧
    p2.generations[h.index]? = some h.generation := by
  induction fuel generalizing p with
  | zero => simp [Pool.malloc] at hok
  | succ n ih =>
    cases hfi : p.free_indices with
    | cons index rest =>
      rw [malloc_pop n p index rest hfi] at hok
      simp only [Option.some.injEq, Except.ok.injEq, Prod.mk.injEq] at hok
      obtain ⟨hh, hp⟩ := hok
      subst hp
      obtain ⟨hlen, hmax, hfree⟩ := hinv
      have hidx : index < p.generations.length := by
        refine hfree index ?_
        rw [hfi]; exact List.mem_cons_self index rest
      have hg : ∃ g, p.generations[index]? = some g := by
        rcases List.getElem?_eq_getElem hidx with hget
        exact ⟨_, hget⟩
      obtain ⟨g, hg⟩ := hg
      have hgd : p.generations.getD index 0 = g := by
        rw [List.getD_eq_getElem?_getD, hg]; rfl
      refine ⟨⟨?_, hmax, ?_⟩, le_refl _, fun i _ => rfl, ?_⟩
      · simp [listModify_length, hlen]
      · intro i hi
        refine hfree i ?_
        rw [hfi]; exact List.mem_cons_of_mem index hi
      · rw [← hh, hgd, hg]
    | nil =>
      cases hds : p.double_size with
      | error e =>
        rw [malloc_grow_fail n p e hfi hds] at hok
        simp at hok
      | ok pd =>
        rw [malloc_grow n p pd hfi hds] at hok
        have hinvd := double_size_inv p pd hinv hds
        obtain ⟨hlt, hlen2, _, _, hpres, _, _, _, _⟩ := double_size_ok p pd hds hinv
        obtain ⟨i1, i2, i3, i4⟩ := ih pd hinvd hok
        refine ⟨i1, by omega, ?_, i4⟩
        intro i hi
        rw [i3 i (by omega), hpres i hi]

/-- A matching handle keeps matching across a successful malloc. -/
theorem malloc_pres_is_match {α : Type} (fuel : Nat) (p p2 : Pool α) (h h2 : Handle)
    (hinv : PoolInv p) (hok : p.malloc fuel = some (Except.ok (h2, p2)))
    (hm : p.is_match h = true) : p2.is_match h = true := by
  obtain ⟨_, _, hpres, _⟩ := malloc_ok_spec fuel p p2 h2 hinv hok
  have hg := (is_match_iff p h).1 hm
  have hidx : h.index < p.generations.length := by
    rcases List.getElem?_eq_some.1 hg with ⟨hl, _⟩; exact hl
  exact (is_match_iff p2 h).2 (by rw [hpres h.index hidx, hg])

/-- A matching handle keeps matching across a free of a DIFFERENT handle. -/
theorem free_pres_is_match {α : Type} (p : Pool α) (h h2 : Handle)
    (hm : p.is_match h = true) (hne : h2 ≠ h) : (p.free h2).is_match h = true := by
  unfold Pool.free
  by_cases hm2 : p.is_match h2
  · simp only [hm2, if_pos]
    have hg := (is_match_iff p h).1 hm
    have hg2 := (is_match_iff p h2).1 hm2
    by_cases hix : h2.index = h.index
    · exfalso
      apply hne
      rw [hix, hg] at hg2
      injection hg2 with hgen
      cases h
      cases h2
      simp_all
    · refine (is_match_iff _ h).2 ?_
      show (p.generations.set h2.index _)[h.index]? = some h.generation
      rw [List.getElem?_set, if_neg hix]
      exact hg
  · simp only [hm2, Bool.false_eq_true, if_false]
    exact hm

/-- After free(h) with a matching h, the stored generation moved away from
h.generation, so h no longer matches. -/
theorem free_self_not_match {α : Type} (p : Pool α) (h : Handle) :
    (p.free h).is_match h = false := by
  unfold Pool.free
  by_cases hm : p.is_match h
  · simp only [hm, if_pos]
    have hg := (is_match_iff p h).1 hm
    have hidx : h.index < p.generations.length := by
      rcases List.getElem?_eq_some.1 hg with ⟨hl, _⟩; exact hl
    have hgd : p.generations.getD h.index 0 = h.generation := by
      rw [List.getD_eq_getElem?_getD, hg]; rfl
    refine (is_match_false_iff _ h).2 ?_
    show (p.generations.set h.index _)[h.index]? ≠ some h.generation
    rw [List.getElem?_set, if_pos rfl, if_pos hidx, hgd]
    intro hcontra
    simp only [Option.some.injEq] at hcontra
    exact succ_mod_u16_ne h.generation hcontra
  · simp [hm]

/-- Every reachable pool satisfies the structural invariant. -/
theorem reachable_inv {α : Type} (p : Pool α) (hr : Reachable p) : PoolInv p := by
  induction hr with
  | init size it p hp => exact with_size_inv size it p hp
  | step_malloc p p2 fuel h _ hok ih => exact (malloc_ok_spec fuel p p2 h ih hok).1
  | step_free p h _ ih => exact free_inv p h ih

theorem get_isSome_of_is_match {α : Type} (p : Pool α) (h : Handle)
    (hinv : PoolInv p) (hm : p.is_match h = true) : ∃ it, p.get h = some it := by
  obtain ⟨hlen, _, _⟩ := hinv
  have hg := (is_match_iff p h).1 hm
  have hidx : h.index < p.generations.length := by
    rcases List.getElem?_eq_some.1 hg with ⟨hl, _⟩; exact hl
  have hidx2 : h.index < p.items.length := by omega
  unfold Pool.get
  rw [if_pos hm]
  exact ⟨_, List.getElem?_eq_getElem hidx2⟩

theorem is_match_of_get_some {α : Type} (p : Pool α) (h : Handle) (it : Item α)
    (hget : p.get h = some it) : p.is_match h = true := by
  unfold Pool.get at hget
  by_cases hm : p.is_match h
  · exact hm
  · rw [if_neg hm] at hget; cases hget

theorem get_none_of_not_match {α : Type} (p : Pool α) (h : Handle)
    (hm : p.is_match h = false) : p.get h = none ∧ p.get_mut h = none := by
  unfold Pool.get Pool.get_mut
  rw [hm]
  simp

theorem reachable_pool1 : Reachable pool1 :=
  Reachable.init 1 item0 pool1 (by decide)

/-! Claim theorems. -/

/-- Claim C1: for every handle h returned by malloc, get(h) succeeds and
returns the slot's item, and keeps succeeding across later mallocs and frees
of other handles, until free(h) is called; after free(h), get(h) and
get_mut(h) return none; and for every handle whose index is out of range or
whose generation does not match the stored one, get and get_mut return none.
The model's get/get_mut are total functions built on checked indexing, so no
call panics or indexes out of range. -/
theorem c1_handle_lifecycle (α : Type) :
    (∀ (p p2 : Pool α) (h : Handle) (fuel : Nat), Reachable p →
      p.malloc fuel = some (Except.ok (h, p2)) → ∃ it, p2.get h = some it) ∧
    (∀ (p p2 : Pool α) (h h2 : Handle) (fuel : Nat), Reachable p →
      (∃ it, p.get h = some it) → p.malloc fuel = some (Except.ok (h2, p2)) →
      ∃ it, p2.get h = some it) ∧
    (∀ (p : Pool α) (h h2 : Handle), Reachable p →
      (∃ it, p.get h = some it) → h2 ≠ h → ∃ it, (p.free h2).get h = some it) ∧
    (∀ (p : Pool α) (h : Handle), (p.free h).get h = none ∧ (p.free h).get_mut h = none) ∧
    (∀ (p : Pool α) (h : Handle), p.generations[h.index]? ≠ some h.generation →
      p.get h = none ∧ p.get_mut h = none) := by
  refine ⟨?_, ?_, ?_, ?_, ?_⟩
  · intro p p2 h fuel hr hok
    have hinv := reachable_inv p hr
    obtain ⟨hinv2, _, _, hg⟩ := malloc_ok_spec fuel p p2 h hinv hok
    exact get_isSome_of_is_match p2 h hinv2 ((is_match_iff p2 h).2 hg)
  · intro p p2 h h2 fuel hr hget hok
    obtain ⟨it, hget⟩ := hget
    have hinv := reachable_inv p hr
    have hm := is_match_of_get_some p h it hget
    have hm2 := malloc_pres_is_match fuel p p2 h h2 hinv hok hm
    exact get_isSome_of_is_match p2 h (malloc_ok_spec fuel p p2 h2 hinv hok).1 hm2
  · intro p h h2 hr hget hne
    obtain ⟨it, hget⟩ := hget
    have hinv := reachable_inv p hr
    have hm := is_match_of_get_some p h it hget
    have hm2 := free_pres_is_match p h h2 hm hne
    exact get_isSome_of_is_match (p.free h2) h (free_inv p h2 hinv) hm2
  · intro p h
    exact get_none_of_not_match (p.free h) h (free_self_not_match p h)
  · intro p h hne
    exact get_none_of_not_match p h ((is_match_false_iff p h).2 hne)

/-- Witness for C1 at concrete inputs: the handle (0,0) malloced from the
one-slot pool is gettable afterwards, and a stale generation fails. -/
theorem c1_handle_lifecycle_witness :
    (∃ it, pool1A.get { index := 0, generation := 0 } = some it) ∧
    (pool1.get { index := 0, generation := 7 } = none ∧
     pool1.get_mut { index := 0, generation := 7 } = none) :=
  ⟨(c1_handle_lifecycle Nat).1 pool1 pool1A { index := 0, generation := 0 } 1
      reachable_pool1 (by decide),
   (c1_handle_lifecycle Nat).2.2.2.2 pool1 { index := 0, generation := 7 } (by decide)⟩

/-- Claim C7: the default sentinel handle (index = generation = 65535) never
validates on any pool reachable by with_size / malloc / free, because
with_size rejects sizes above u16::MAX and double_size caps the slot count at
u16::MAX, so slot index 65535 is never in range. -/
theorem c7_sentinel_never_valid (α : Type) (p : Pool α) (hr : Reachable p) :
    p.is_match Handle.default = false ∧ p.get Handle.default = none ∧
    p.get_mut Handle.default = none := by
  obtain ⟨hlen, hmax, _⟩ := reachable_inv p hr
  have hnone : p.generations[(Handle.default).index]? = none := by
    apply List.getElem?_eq_none
    show p.generations.length ≤ U16_MAX
    exact hmax
  have hm : p.is_match Handle.default = false := by
    rw [is_match_false_iff, hnone]
    simp
  obtain ⟨hg, hgm⟩ := get_none_of_not_match p Handle.default hm
  exact ⟨hm, hg, hgm⟩

/-- Witness for C7 at a concrete reachable pool. -/
theorem c7_sentinel_never_valid_witness :
    pool1.is_match Handle.default = false ∧ pool1.get Handle.default = none ∧
    pool1.get_mut Handle.default = none :=
  c7_sentinel_never_valid Nat pool1 reachable_pool1

/-- First two elements of List.range n for n at least 2. -/
theorem range_two_cons (n : Nat) (hn : 2 ≤ n) :
    List.range n = 0 :: 1 :: List.range' 2 (n - 2) := by
  obtain ⟨k, rfl⟩ : ∃ k, n = k + 2 := ⟨n - 2, by omega⟩
  have h1 : List.range (k + 2) = List.range' 0 (k + 2) := List.range_eq_range' _
  have h2 : List.range' 0 (k + 2) = 0 :: List.range' 1 (k + 1) := by
    have := List.range'_succ 0 (k + 1) 1
    simpa using this
  have h3 : List.range' 1 (k + 1) = 1 :: List.range' 2 k := by
    have := List.range'_succ 1 k 1
    simpa using this
  rw [show k + 2 - 2 = k from by omega, h1, h2, h3]

theorem replicate_getD_zero (n i : Nat) (hi : i < n) :
    (List.replicate n (0 : Nat)).getD i 0 = 0 := by
  rw [List.getD_eq_getElem?_getD, List.getElem?_replicate, if_pos hi]
  rfl

theorem replicate_getElem?_zero (n i : Nat) (hi : i < n) :
    (List.replicate n (0 : Nat))[i]? = some 0 := by
  rw [List.getElem?_replicate, if_pos hi]

theorem set_one_getD (n : Nat) (hn : 0 < n) :
    ((List.replicate n (0 : Nat)).set 0 1).getD 0 0 = 1 := by
  rw [List.getD_eq_getElem?_getD, List.getElem?_set, if_pos rfl,
    if_pos (by simp only [List.length_replicate]; omega)]
  rfl

theorem set_one_getElem? (n : Nat) (hn : 0 < n) :
    ((List.replicate n (0 : Nat)).set 0 1)[0]? = some 1 := by
  rw [List.getElem?_set, if_pos rfl,
    if_pos (by simp only [List.length_replicate]; omega)]

/-- Step 1 of C2: the first malloc pops index 0 at generation 0. -/
theorem c2_step1 (α : Type) (n : Nat) (init : Item α) (hn : 2 ≤ n) :
    (c2pool α n init).malloc 1 =
      some (Except.ok ({ index := 0, generation := 0 }, c2p1 α n init)) := by
  have hfree : (c2pool α n init).free_indices = 0 :: 1 :: List.range' 2 (n - 2) := by
    show List.range n = _
    exact range_two_cons n hn
  rw [malloc_pop 0 _ 0 _ hfree]
  simp only [c2pool, c2p1, c2items1, replicate_getD_zero n 0 (by omega)]

/-- Step 2 of C2: the second malloc pops index 1 at generation 0. -/
theorem c2_step2 (α : Type) (n : Nat) (init : Item α) (hn : 2 ≤ n) :
    (c2p1 α n init).malloc 1 =
      some (Except.ok ({ index := 1, generation := 0 }, c2p2 α n init)) := by
  rw [malloc_pop 0 _ 1 _ rfl]
  simp only [c2p1, c2p2, c2items2, replicate_getD_zero n 1 (by omega)]

/-- Step 3 of C2: freeing handle (0,0) bumps slot 0 to generation 1 and
pushes index 0 back on the free stack. -/
theorem c2_step3 (α : Type) (n : Nat) (init : Item α) (hn : 2 ≤ n) :
    (c2p2 α n init).free { index := 0, generation := 0 } = c2p3 α n init := by
  have hm : (c2p2 α n init).is_match { index := 0, generation := 0 } = true := by
    refine (is_match_iff _ _).2 ?_
    show (List.replicate n (0 : Nat))[0]? = some 0
    exact replicate_getElem?_zero n 0 (by omega)
  unfold Pool.free
  rw [hm]
  simp only [eq_self_iff_true, if_true, c2p2, c2p3, c2items3,
    replicate_getD_zero n 0 (by omega)]

/-- Step 4 of C2: the reusing malloc pops index 0 again, now at generation 1. -/
theorem c2_step4 (α : Type) (n : Nat) (init : Item α) (hn : 2 ≤ n) :
    (c2p3 α n init).malloc 1 =
      some (Except.ok ({ index := 0, generation := 1 }, c2p4 α n init)) := by
  rw [malloc_pop 0 _ 0 _ rfl]
  simp only [c2p3, c2p4, c2items4, set_one_getD n (by omega)]

/-- Claim C2: from a fresh pool of capacity at least 2, malloc; malloc;
free(first); malloc yields handles (0,0), (1,0) and then (0,1): the lowest
free index is handed out first, a freed index is reused LIFO, and reuse bumps
the generation, so that the old handle keeps failing at the reused index. -/
theorem c2_lifo_generation_bump (α : Type) (n : Nat) (init : Item α) (p : Pool α)
    (hn : 2 ≤ n) (hp : with_size n init = Except.ok p) :
    p.malloc 1 = some (Except.ok ({ index := 0, generation := 0 }, c2p1 α n init)) ∧
    (c2p1 α n init).malloc 1 =
      some (Except.ok ({ index := 1, generation := 0 }, c2p2 α n init)) ∧
    (c2p2 α n init).free { index := 0, generation := 0 } = c2p3 α n init ∧
    (c2p3 α n init).malloc 1 =
      some (Except.ok ({ index := 0, generation := 1 }, c2p4 α n init)) ∧
    ({ index := 0, generation := 1 } : Handle).index =
      ({ index := 0, generation := 0 } : Handle).index ∧
    ({ index := 0, generation := 1 } : Handle).generation ≠
      ({ index := 0, generation := 0 } : Handle).generation ∧
    (c2p3 α n init).get { index := 0, generation := 0 } = none ∧
    (c2p4 α n init).get { index := 0, generation := 0 } = none := by
  have hle : ¬ n > U16_MAX := by
    intro hgt
    unfold with_size at hp
    rw [if_pos hgt] at hp
    cases hp
  have hpeq : p = c2pool α n init := by
    unfold with_size at hp
    rw [if_neg hle] at hp
    exact (Except.ok.inj hp).symm
  subst hpeq
  have hm3 : (c2p3 α n init).is_match { index := 0, generation := 0 } = false := by
    refine (is_match_false_iff _ _).2 ?_
    show ((List.replicate n (0 : Nat)).set 0 1)[0]? ≠ some 0
    rw [set_one_getElem? n (by omega)]
    simp
  have hm4 : (c2p4 α n init).is_match { index := 0, generation := 0 } = false := by
    refine (is_match_false_iff _ _).2 ?_
    show ((List.replicate n (0 : Nat)).set 0 1)[0]? ≠ some 0
    rw [set_one_getElem? n (by omega)]
    simp
  exact ⟨c2_step1 α n init hn, c2_step2 α n init hn, c2_step3 α n init hn,
    c2_step4 α n init hn, rfl, by simp,
    (get_none_of_not_match _ _ hm3).1, (get_none_of_not_match _ _ hm4).1⟩

/-- Witness for C2 at capacity 2 with Nat payloads. -/
theorem c2_lifo_generation_bump_witness :
    pool2.malloc 1 = some (Except.ok ({ index := 0, generation := 0 }, c2p1 Nat 2 item0)) ∧
    (c2p1 Nat 2 item0).malloc 1 =
      some (Except.ok ({ index := 1, generation := 0 }, c2p2 Nat 2 item0)) ∧
    (c2p2 Nat 2 item0).free { index := 0, generation := 0 } = c2p3 Nat 2 item0 ∧
    (c2p3 Nat 2 item0).malloc 1 =
      some (Except.ok ({ index := 0, generation := 1 }, c2p4 Nat 2 item0)) ∧
    ({ index := 0, generation := 1 } : Handle).index =
      ({ index := 0, generation := 0 } : Handle).index ∧
    ({ index := 0, generation := 1 } : Handle).generation ≠
      ({ index := 0, generation := 0 } : Handle).generation ∧
    (c2p3 Nat 2 item0).get { index := 0, generation := 0 } = none ∧
    (c2p4 Nat 2 item0).get { index := 0, generation := 0 } = none :=
  c2_lifo_generation_bump Nat 2 item0 pool2 (by norm_num) (by decide)

/-- Folding cons over a list reverses it onto the accumulator. -/
theorem foldl_cons_rev {α : Type} (r : List α) :
    ∀ init : List α, List.foldl (fun l i => i :: l) init r = r.reverse ++ init := by
  induction r with
  | nil => intro init; simp
  | cons a r ih =>
    intro init
    simp only [List.foldl_cons, ih, List.reverse_cons, List.append_assoc,
      List.cons_append, List.nil_append]

/-- Composing one successful malloc with a successful run of k more. -/
theorem malloc_n_cons {α : Type} (fuel k : Nat) (p p1 p2 : Pool α) (h : Handle)
    (hs : List Handle)
    (hok : p.malloc fuel = some (Except.ok (h, p1)))
    (hrun : p1.malloc_n fuel k = some (Except.ok (hs, p2))) :
    p.malloc_n fuel (k + 1) = some (Except.ok (h :: hs, p2)) := by
  simp only [Pool.malloc_n, hok, hrun]

/-- Running k mallocs with fuel 1 on a pool whose free stack is the
contiguous range [s, s+k) over all-zero generations pops the range in order,
issuing the handles (s,0), (s+1,0), ..., and leaves generations, item count
and init untouched with an empty free stack. -/
theorem malloc_n_fresh {α : Type} (N : Nat) (init : Item α) :
    ∀ (k s : Nat) (p : Pool α), s + k ≤ N →
      p.generations = List.replicate N 0 →
      p.free_indices = List.range' s k →
      p.items.length = N →
      p.fp_init = init →
      ∃ p2, p.malloc_n 1 k = some (Except.ok
          ((List.range' s k).map (fun i => { index := i, generation := 0 }), p2)) ∧
        p2.generations = List.replicate N 0 ∧
        p2.free_indices = [] ∧
        p2.items.length = N ∧
        p2.fp_init = init := by
  intro k
  induction k with
  | zero =>
    intro s p hsk hg hf hi hfp
    refine ⟨p, by simp [Pool.malloc_n], hg, ?_, hi, hfp⟩
    rw [hf]
    rfl
  | succ k ih =>
    intro s p hsk hg hf hi hfp
    have hf2 : p.free_indices = s :: List.range' (s + 1) k := by
      rw [hf, List.range'_succ]
    have hgd : p.generations.getD s 0 = 0 := by
      rw [hg]
      exact replicate_getD_zero N s (by omega)
    have e1 := malloc_pop 0 p s _ hf2
    rw [hgd] at e1
    obtain ⟨p2, hrun, hg2, hf2b, hi2, hfp2⟩ := ih (s + 1)
      { p with
        free_indices := List.range' (s + 1) k
        items := listModify p.items s
          (fun it => { it with handle := some { index := s, generation := 0 } }) }
      (by omega) hg rfl (by simpa [listModify_length] using hi) hfp
    refine ⟨p2, ?_, hg2, hf2b, hi2, hfp2⟩
    have := malloc_n_cons 1 k p _ p2 { index := s, generation := 0 } _ e1 hrun
    rw [this, List.range'_succ]
    rfl

/-- Claim C9: free on a valid handle increments the slot's stored 16-bit
generation with wrapping arithmetic: if the stored generation is 65535, free
succeeds (the index goes back on the free stack, the handle stops matching)
and the stored generation becomes 0, i.e. the increment is modulo 2^16.  The
model gives the u16 `+= 1` release-mode wrapping semantics; a debug build
would panic on this overflow instead of wrapping. -/
theorem c9_generation_wrap (α : Type) (p : Pool α) (h : Handle)
    (hm : p.is_match h = true) (hg : p.generations[h.index]? = some U16_MAX) :
    (p.free h).generations[h.index]? = some 0 ∧
    (p.free h).free_indices = h.index :: p.free_indices ∧
    (p.free h).is_match h = false := by
  have hidx : h.index < p.generations.length := by
    rcases List.getElem?_eq_some.1 hg with ⟨hl, _⟩; exact hl
  have hgd : p.generations.getD h.index 0 = U16_MAX := by
    rw [List.getD_eq_getElem?_getD, hg]; rfl
  have hfe : p.free h =
      { items := listModify p.items h.index (fun it => { it with handle := none })
        generations := p.generations.set h.index ((U16_MAX + 1) % 65536)
        free_indices := h.index :: p.free_indices
        fp_init := p.fp_init } := by
    unfold Pool.free
    rw [hm]
    simp only [eq_self_iff_true, if_true, hgd]
  refine ⟨?_, ?_, free_self_not_match p h⟩
  · rw [hfe]
    show (p.generations.set h.index ((U16_MAX + 1) % 65536))[h.index]? = some 0
    rw [List.getElem?_set, if_pos rfl, if_pos hidx]
    norm_num [U16_MAX]
  · rw [hfe]

/-- Witness for C9: freeing the handle (0, 65535) on a concrete one-slot pool
at stored generation 65535 wraps the stored generation to 0. -/
theorem c9_generation_wrap_witness :
    (poolWrap.free { index := 0, generation := U16_MAX }).generations[({ index := 0, generation := U16_MAX } : Handle).index]? = some 0 ∧
    (poolWrap.free { index := 0, generation := U16_MAX }).free_indices =
      ({ index := 0, generation := U16_MAX } : Handle).index :: poolWrap.free_indices ∧
    (poolWrap.free { index := 0, generation := U16_MAX }).is_match
      { index := 0, generation := U16_MAX } = false :=
  c9_generation_wrap Nat poolWrap { index := 0, generation := U16_MAX }
    (by decide) (by decide)

/-- Counterexample to claim C8 as stated: malloc; write 7 through get_mut;
free; malloc on a one-slot pool reuses slot 0, and the item handed back still
carries payload 7, not the init-constructed payload 0 — the slot contents are
NOT reset to the caller-supplied default-construction before reuse. -/
theorem c8_no_reset_counterexample :
    pool1.malloc 1 = some (Except.ok ({ index := 0, generation := 0 }, pool1A)) ∧
    (pool1A.write { index := 0, generation := 0 } 7).free { index := 0, generation := 0 } = c8freed ∧
    c8freed.malloc 1 = some (Except.ok ({ index := 0, generation := 1 }, c8reused)) ∧
    c8reused.fp_init.payload = 0 ∧
    (c8reused.get { index := 0, generation := 1 }).map Item.payload = some 7 ∧
    ¬ ((c8reused.get { index := 0, generation := 1 }).map Item.payload =
        some c8reused.fp_init.payload) := by
  decide

/-- Claim C8 amended: when malloc reuses a previously freed slot, it does NOT
reset the slot's contents to the init construction; it only sets the slot's
handle field to the new handle, leaving the rest of the slot (the payload) at
its previous value, and it leaves all other slots untouched.  (free had
already cleared the handle field; only slots newly created by pool growth
are init-constructed.) -/
theorem c8_amended_no_reset (α : Type) (p p2 : Pool α) (h : Handle)
    (hok : p.malloc 1 = some (Except.ok (h, p2))) :
    p2.items[h.index]? = (p.items[h.index]?).map
      (fun it => { it with handle := some h }) ∧
    (∀ j, j ≠ h.index → p2.items[j]? = p.items[j]?) := by
  cases hfi : p.free_indices with
  | nil =>
    exfalso
    cases hds : p.double_size with
    | error e =>
      rw [malloc_grow_fail 0 p e hfi hds] at hok
      simp at hok
    | ok pd =>
      rw [malloc_grow 0 p pd hfi hds] at hok
      simp [Pool.malloc] at hok
  | cons index rest =>
    rw [malloc_pop 0 p index rest hfi] at hok
    simp only [Option.some.injEq, Except.ok.injEq, Prod.mk.injEq] at hok
    obtain ⟨hh, hp⟩ := hok
    subst hp
    subst hh
    constructor
    · show (listModify p.items index _)[index]? = _
      rw [listModify_getElem?, if_pos rfl]
    · intro j hj
      show (listModify p.items index _)[j]? = _
      rw [listModify_getElem?, if_neg hj]

/-- Witness for the amended C8 on the one-slot pool. -/
theorem c8_amended_no_reset_witness :
    pool1A.items[({ index := 0, generation := 0 } : Handle).index]? =
      (pool1.items[({ index := 0, generation := 0 } : Handle).index]?).map
        (fun it => { it with handle := some { index := 0, generation := 0 } }) ∧
    (∀ j, j ≠ ({ index := 0, generation := 0 } : Handle).index →
      pool1A.items[j]? = pool1.items[j]?) :=
  c8_amended_no_reset Nat pool1 pool1A { index := 0, generation := 0 } (by decide)

/-- Claim C10: malloc reaches an outcome (success or the max-size panic)
within fuel 2 for every well-formed pool with a nonzero slot count, but on
the pool built by with_size(0, init) the Rust recursion never terminates:
with an empty free list, double_size computes new_len = min(0*2, 65535) = 0,
appends no free indices, and malloc recurses forever without reaching the
max-size panic check — in the fuel model, malloc returns none at every fuel. -/
theorem c10_malloc_termination (α : Type) (init : Item α) (p0 : Pool α)
    (h0 : with_size 0 init = Except.ok p0) :
    (∀ fuel, p0.malloc fuel = none) ∧
    (∀ q : Pool α, PoolInv q → 0 < q.generations.length → (q.malloc 2).isSome = true) := by
  have hp0 : p0 = { items := [], generations := [], free_indices := [], fp_init := init } := by
    unfold with_size at h0
    rw [if_neg (by norm_num [U16_MAX])] at h0
    exact (Except.ok.inj h0).symm
  subst hp0
  constructor
  · intro fuel
    induction fuel with
    | zero => rfl
    | succ n ih =>
      have hds0 : Pool.double_size
          { items := ([] : List (Item α)), generations := [], free_indices := [],
            fp_init := init } =
          Except.ok
          { items := ([] : List (Item α)), generations := [], free_indices := [],
            fp_init := init } := rfl
      rw [malloc_grow n _ _ rfl hds0]
      exact ih
  · intro q hinv hq
    cases hfq : q.free_indices with
    | cons i rest =>
      rw [malloc_pop 1 q i rest hfq]
      rfl
    | nil =>
      cases hds : q.double_size with
      | error e =>
        rw [malloc_grow_fail 1 q e hfq hds]
        rfl
      | ok qd =>
        rw [malloc_grow 1 q qd hfq hds]
        obtain ⟨hlt, hlen2, _, _, _, _, _, _, hmem⟩ := double_size_ok q qd hds hinv
        have hnl : q.generations.length < qd.generations.length := by
          rw [hlen2]
          simp only [U16_MAX] at hlt ⊢
          omega
        have hmemL : q.generations.length ∈ qd.free_indices :=
          (hmem _).2 (Or.inr ⟨le_refl _, hnl⟩)
        cases hfq2 : qd.free_indices with
        | nil => rw [hfq2] at hmemL; cases hmemL
        | cons j rest2 =>
          rw [malloc_pop 0 qd j rest2 hfq2]
          rfl

/-- Witness for C10: the empty pool never terminates (sampled at fuel 5), and
the one-slot pool's malloc terminates at fuel 2. -/
theorem c10_malloc_termination_witness :
    poolEmpty.malloc 5 = none ∧ (pool1.malloc 2).isSome = true := by
  have h := c10_malloc_termination Nat item0 poolEmpty (by decide)
  exact ⟨h.1 5, h.2 pool1 ⟨rfl, by decide, by decide⟩ (by decide)⟩

/-- Claim C3: for a pool created with nonzero capacity N (N below the 16-bit
limit) on which N handles have been allocated and none freed, the (N+1)-th
malloc succeeds by doubling the capacity, capped at the 16-bit index limit
(the new slot count is min(N*2, 65535)); the fresh handle comes from a newly
added slot at generation 0; every one of the N previously issued handles
still validates (get succeeds) after growth; and every newly added slot has
stored generation 0. -/
theorem c3_growth (α : Type) (N : Nat) (init : Item α) (p0 p : Pool α)
    (hs : List Handle)
    (hN0 : 0 < N) (hNlt : N < U16_MAX)
    (hp0 : with_size N init = Except.ok p0)
    (hrun : p0.malloc_n 1 N = some (Except.ok (hs, p))) :
    ∃ h3 p2, p.malloc 2 = some (Except.ok (h3, p2)) ∧
      h3.generation = 0 ∧ N ≤ h3.index ∧
      p2.generations.length = min (N * 2) U16_MAX ∧
      hs = (List.range' 0 N).map (fun i => { index := i, generation := 0 }) ∧
      (∀ h2 ∈ hs, p2.is_match h2 = true ∧ ∃ it, p2.get h2 = some it) ∧
      (∀ j, N ≤ j → j < min (N * 2) U16_MAX → p2.generations[j]? = some 0) := by
  have hU : U16_MAX = 65535 := rfl
  rw [hU] at hNlt
  have hpeq : p0 = c2pool α N init := by
    have hle : ¬ N > U16_MAX := by rw [hU]; omega
    unfold with_size at hp0
    rw [if_neg hle] at hp0
    exact (Except.ok.inj hp0).symm
  subst hpeq
  obtain ⟨pc, hrunc, hgc, hfc, hic, hfpc⟩ := malloc_n_fresh N init N 0 (c2pool α N init)
    (by omega) rfl (by show List.range N = _; exact List.range_eq_range' _)
    (by simp [c2pool]) rfl
  rw [hrunc] at hrun
  simp only [Option.some.injEq, Except.ok.injEq, Prod.mk.injEq] at hrun
  obtain ⟨hhs, hpc⟩ := hrun
  subst hpc
  have hL : pc.generations.length = N := by rw [hgc]; simp
  have hinv : PoolInv pc := by
    refine ⟨?_, ?_, ?_⟩
    · rw [hL, hic]
    · rw [hL, hU]; omega
    · intro i hmemi
      rw [hfc] at hmemi
      cases hmemi
  have hfull : pc.generations.length ≠ U16_MAX := by rw [hL, hU]; omega
  obtain ⟨pd, hds⟩ : ∃ pd, pc.double_size = Except.ok pd := ⟨_, double_size_eq pc hfull⟩
  obtain ⟨hlt2, hlen2, hil2, hfp2, hpres, hipres, hnew, hinew, hmem⟩ :=
    double_size_ok pc pd hds hinv
  have hKgt : pc.generations.length < pd.generations.length := by
    rw [hlen2, hL, hU]
    omega
  have hmemN : N ∈ pd.free_indices := by
    refine (hmem N).2 (Or.inr ⟨?_, ?_⟩)
    · rw [hL]
    · omega
  cases hfpd : pd.free_indices with
  | nil =>
    rw [hfpd] at hmemN
    cases hmemN
  | cons j rest =>
    have hjmem : j ∈ pd.free_indices := by
      rw [hfpd]
      exact List.mem_cons_self _ _
    have hjN : N ≤ j ∧ j < pd.generations.length := by
      rcases (hmem j).1 hjmem with hj1 | hj2
      · rw [hfc] at hj1
        cases hj1
      · exact ⟨hL ▸ hj2.1, hj2.2⟩
    have hgj : pd.generations[j]? = some 0 := hnew j (by rw [hL]; exact hjN.1) hjN.2
    have hgdj : pd.generations.getD j 0 = 0 := by
      rw [List.getD_eq_getElem?_getD, hgj]
      rfl
    have hok2 := malloc_pop 0 pd j rest hfpd
    rw [hgdj] at hok2
    rw [← malloc_grow 1 pc pd hfc hds] at hok2
    obtain ⟨hinv2, hmono2, hpres2, hgen2⟩ := malloc_ok_spec 2 pc _ _ hinv hok2
    refine ⟨{ index := j, generation := 0 }, _, hok2, rfl, hjN.1, ?_, hhs.symm, ?_, ?_⟩
    · show pd.generations.length = min (N * 2) U16_MAX
      rw [hlen2, hL]
    · intro h2 hmem2
      rw [← hhs] at hmem2
      obtain ⟨i, hi, rfl⟩ := List.mem_map.1 hmem2
      have hiN : i < N := by
        rw [List.mem_range'] at hi
        obtain ⟨k, hkN, hik⟩ := hi
        omega
      have hm2 : Pool.is_match
          { pd with
            free_indices := rest
            items := listModify pd.items j
              (fun it => { it with handle := some { index := j, generation := 0 } }) }
          { index := i, generation := 0 } = true := by
        refine (is_match_iff _ _).2 ?_
        rw [hpres2 i (by rw [hL]; exact hiN), hgc]
        exact replicate_getElem?_zero N i hiN
      exact ⟨hm2, get_isSome_of_is_match _ _ hinv2 hm2⟩
    · intro j2 hj2a hj2b
      show pd.generations[j2]? = some 0
      refine hnew j2 (by rw [hL]; exact hj2a) ?_
      rw [hlen2, hL]
      exact hj2b

/-- Witness for C3 at N = 1 with Nat payloads. -/
theorem c3_growth_witness :
    ∃ h3 p2, pool1A.malloc 2 = some (Except.ok (h3, p2)) ∧
      h3.generation = 0 ∧ 1 ≤ h3.index ∧
      p2.generations.length = min (1 * 2) U16_MAX ∧
      [({ index := 0, generation := 0 } : Handle)] =
        (List.range' 0 1).map (fun i => { index := i, generation := 0 }) ∧
      (∀ h2 ∈ [({ index := 0, generation := 0 } : Handle)],
        p2.is_match h2 = true ∧ ∃ it, p2.get h2 = some it) ∧
      (∀ j, 1 ≤ j → j < min (1 * 2) U16_MAX → p2.generations[j]? = some 0) :=
  c3_growth Nat 1 item0 pool1 pool1A [{ index := 0, generation := 0 }]
    (by norm_num) (by decide) (by decide) (by decide)

/-! Render-system trace lemmas and claims C4, C5, C6. -/

theorem mem_cleanup_shapes (s : RenderSystem) (e : Event)
    (he : e ∈ cleanup_swapchain s) :
    e.isDeviceWaitIdle = false ∧ e.isResetFences = false ∧ e.isDestroy = true := by
  simp only [cleanup_swapchain, List.mem_append, List.mem_map, List.mem_cons,
    List.not_mem_nil, or_false] at he
  rcases he with ⟨fb, _, rfl⟩ | rfl | rfl <;> exact ⟨rfl, rfl, rfl⟩

theorem mem_rebuild_shapes (d : Driver) (s : RenderSystem) (e : Event)
    (he : e ∈ rebuild_framebuffer_events d s) :
    e.isDeviceWaitIdle = false ∧ e.isResetFences = false := by
  simp only [rebuild_framebuffer_events, List.mem_flatten, List.mem_map] at he
  obtain ⟨l, ⟨i, hi, rfl⟩, hel⟩ := he
  simp only [List.mem_cons, List.not_mem_nil, or_false] at hel
  rcases hel with rfl | rfl | rfl <;> exact ⟨rfl, rfl⟩

/-- The trace of recreate_swapchain starts with the device-wide idle wait,
and no later event is another idle wait or a fence reset. -/
theorem recreate_tail_shapes (d : Driver) (s : RenderSystem) (w h : Nat) :
    ∃ tl, (recreate_swapchain d s w h).2 = Event.device_wait_idle :: tl ∧
      ∀ e ∈ tl, e.isDeviceWaitIdle = false ∧ e.isResetFences = false := by
  refine ⟨_, rfl, ?_⟩
  intro e he
  rcases List.mem_append.1 he with hc | he3
  · exact ⟨(mem_cleanup_shapes s e hc).1, (mem_cleanup_shapes s e hc).2.1⟩
  rcases List.mem_append.1 he3 with hcr | hrb
  · simp only [List.mem_cons, List.not_mem_nil, or_false] at hcr
    rcases hcr with rfl | rfl | rfl | rfl <;> exact ⟨rfl, rfl⟩
  · exact mem_rebuild_shapes d s e hrb

theorem recreate_no_reset (d : Driver) (s : RenderSystem) (w h : Nat) :
    ∀ e ∈ (recreate_swapchain d s w h).2, e.isResetFences = false := by
  obtain ⟨tl, htl, hsh⟩ := recreate_tail_shapes d s w h
  intro e he
  rw [htl] at he
  rcases List.mem_cons.1 he with rfl | he2
  · rfl
  · exact (hsh e he2).2

/-- Claim C4: when the acquire reports the swapchain out of date (the
usize::MAX sentinel built from ERROR_OUT_OF_DATE_KHR), begin_frame runs
swapchain recreation and returns false, neither resetting the current slot's
fence nor updating the stored image index; when the acquire succeeds with a
(u32) image index, begin_frame records it, resets the current slot's fence
and returns true. -/
theorem c4_begin_frame_out_of_date (d : Driver) (s : RenderSystem) (w h : Nat) :
    (d.acquire_ret = Except.error VkErr.outOfDateKhr →
      begin_frame d s w h =
        (Except.ok (false, (recreate_swapchain d s w h).1),
         Event.wait_for_fences [s.get_in_flight_fence] ::
           Event.acquire_image s.swapchain s.get_image_available_semaphore ::
           (recreate_swapchain d s w h).2) ∧
      (recreate_swapchain d s w h).1.image_index = s.image_index ∧
      (∀ e ∈ (begin_frame d s w h).2, e.isResetFences = false)) ∧
    (∀ i sub, d.acquire_ret = Except.ok (i, sub) → i < 2 ^ 32 →
      begin_frame d s w h =
        (Except.ok (true, { s with image_index := i }),
         [Event.wait_for_fences [s.get_in_flight_fence],
          Event.acquire_image s.swapchain s.get_image_available_semaphore,
          Event.reset_fences [s.get_in_flight_fence]])) := by
  constructor
  · intro hacq
    have hbf : begin_frame d s w h =
        (Except.ok (false, (recreate_swapchain d s w h).1),
         Event.wait_for_fences [s.get_in_flight_fence] ::
           Event.acquire_image s.swapchain s.get_image_available_semaphore ::
           (recreate_swapchain d s w h).2) := by
      unfold begin_frame acquire_next_image
      rw [hacq]
      simp
    refine ⟨hbf, rfl, ?_⟩
    intro e he
    rw [hbf] at he
    rcases List.mem_cons.1 he with rfl | he2
    · rfl
    rcases List.mem_cons.1 he2 with rfl | he3
    · rfl
    · exact recreate_no_reset d s w h e he3
  · intro i sub hacq hi32
    have hne : (i == USIZE_MAX) = false := by
      refine beq_eq_false_iff_ne.2 ?_
      simp only [USIZE_MAX]
      omega
    unfold begin_frame acquire_next_image
    rw [hacq]
    simp [hne]

/-- Witness for C4 on concrete drivers and render-system state: the
out-of-date branch and the success branch. -/
theorem c4_begin_frame_out_of_date_witness :
    (begin_frame drvOod rs0 800 600 =
      (Except.ok (false, (recreate_swapchain drvOod rs0 800 600).1),
       Event.wait_for_fences [rs0.get_in_flight_fence] ::
         Event.acquire_image rs0.swapchain rs0.get_image_available_semaphore ::
         (recreate_swapchain drvOod rs0 800 600).2) ∧
     (recreate_swapchain drvOod rs0 800 600).1.image_index = rs0.image_index ∧
     (∀ e ∈ (begin_frame drvOod rs0 800 600).2, e.isResetFences = false)) ∧
    begin_frame drvOk rs0 800 600 =
      (Except.ok (true, { rs0 with image_index := 1 }),
       [Event.wait_for_fences [rs0.get_in_flight_fence],
        Event.acquire_image rs0.swapchain rs0.get_image_available_semaphore,
        Event.reset_fences [rs0.get_in_flight_fence]]) :=
  ⟨(c4_begin_frame_out_of_date drvOod rs0 800 600).1 rfl,
   (c4_begin_frame_out_of_date drvOk rs0 800 600).2 1 false rfl (by norm_num)⟩

/-- Claim C6: every execution of recreate_swapchain issues exactly one
device-wide idle wait, as the very first backend call, so the wait precedes
every destruction of a swapchain-owned object; and both triggers — the
out-of-date acquire in begin_frame and the suboptimal/forced present in
end_frame — run this same recreation trace. -/
theorem c6_recreate_wait_idle_first (d : Driver) (s : RenderSystem) (w h : Nat)
    (force : Bool) :
    (recreate_swapchain d s w h).2.countP (fun e => e.isDeviceWaitIdle) = 1 ∧
    (∃ tl, (recreate_swapchain d s w h).2 = Event.device_wait_idle :: tl ∧
      ∀ e ∈ tl, e.isDeviceWaitIdle = false) ∧
    (∀ i e, (recreate_swapchain d s w h).2[i]? = some e → e.isDestroy = true → 0 < i) ∧
    (d.acquire_ret = Except.error VkErr.outOfDateKhr →
      (begin_frame d s w h).2 =
        Event.wait_for_fences [s.get_in_flight_fence] ::
          Event.acquire_image s.swapchain s.get_image_available_semaphore ::
          (recreate_swapchain d s w h).2) ∧
    ((d.present_suboptimal || force) = true →
      (end_frame d s force w h).2 =
        Event.queue_present s.graphics_queue s.swapchain s.image_index
          [s.get_render_finished_semaphore] :: (recreate_swapchain d s w h).2) := by
  obtain ⟨tl, htl, hsh⟩ := recreate_tail_shapes d s w h
  refine ⟨?_, ⟨tl, htl, fun e he => (hsh e he).1⟩, ?_, ?_, ?_⟩
  · rw [htl, List.countP_cons]
    have h0 : tl.countP (fun e => e.isDeviceWaitIdle) = 0 := by
      rw [List.countP_eq_zero]
      intro e he
      simp [(hsh e he).1]
    rw [h0]
    simp [Event.isDeviceWaitIdle]
  · intro i e hget hdest
    cases i with
    | zero =>
      exfalso
      rw [htl] at hget
      simp only [List.getElem?_cons_zero, Option.some.injEq] at hget
      subst hget
      simp [Event.isDestroy] at hdest
    | succ n => omega
  · intro hacq
    unfold begin_frame acquire_next_image
    rw [hacq]
    simp
  · intro hsub
    unfold end_frame
    rw [hsub]
    simp

/-- Witness for C6 on a concrete driver/state: both the begin_frame trigger
and the end_frame trigger produce the recreation trace. -/
theorem c6_recreate_wait_idle_first_witness :
    (begin_frame drvOod rs0 800 600).2 =
      Event.wait_for_fences [rs0.get_in_flight_fence] ::
        Event.acquire_image rs0.swapchain rs0.get_image_available_semaphore ::
        (recreate_swapchain drvOod rs0 800 600).2 ∧
    (end_frame drvOod rs0 false 800 600).2 =
      Event.queue_present rs0.graphics_queue rs0.swapchain rs0.image_index
        [rs0.get_render_finished_semaphore] :: (recreate_swapchain drvOod rs0 800 600).2 :=
  ⟨(c6_recreate_wait_idle_first drvOod rs0 800 600 false).2.2.2.1 rfl,
   (c6_recreate_wait_idle_first drvOod rs0 800 600 false).2.2.2.2 rfl⟩

/-! Structural cache lemmas and claim C5. -/

theorem get_or_create_rp_hit (s : VulkanDeviceCaches) (l : VulkanRenderPassOutput) (o : Nat)
    (hg : cacheGet s.render_pass_cache l = some o) :
    get_or_create_render_pass s l = (o, s) := by
  unfold get_or_create_render_pass
  rw [hg]

theorem get_or_create_fb_hit (s : VulkanDeviceCaches) (dsc : VulkanFramebufferDesc) (o : Nat)
    (hg : cacheGet s.framebuffer_cache dsc = some o) :
    get_or_create_framebuffer s dsc = (o, s) := by
  unfold get_or_create_framebuffer
  rw [hg]

theorem get_or_create_rp_lookup (s : VulkanDeviceCaches) (l : VulkanRenderPassOutput) :
    cacheGet (get_or_create_render_pass s l).2.render_pass_cache l =
      some (get_or_create_render_pass s l).1 := by
  unfold get_or_create_render_pass
  cases hc : cacheGet s.render_pass_cache l with
  | some rp => exact hc
  | none =>
    show cacheGet ((l, s.next_raw) :: s.render_pass_cache) l = some s.next_raw
    unfold cacheGet
    rw [if_pos rfl]

theorem get_or_create_fb_lookup (s : VulkanDeviceCaches) (dsc : VulkanFramebufferDesc) :
    cacheGet (get_or_create_framebuffer s dsc).2.framebuffer_cache dsc =
      some (get_or_create_framebuffer s dsc).1 := by
  unfold get_or_create_framebuffer
  cases hc : cacheGet s.framebuffer_cache dsc with
  | some fb => exact hc
  | none =>
    show cacheGet ((dsc, s.next_raw) :: s.framebuffer_cache) dsc = some s.next_raw
    unfold cacheGet
    rw [if_pos rfl]

theorem rp_call_preserves_rp (s : VulkanDeviceCaches) (l l2 : VulkanRenderPassOutput) (o : Nat)
    (hg : cacheGet s.render_pass_cache l = some o) :
    cacheGet (get_or_create_render_pass s l2).2.render_pass_cache l = some o := by
  unfold get_or_create_render_pass
  cases hc : cacheGet s.render_pass_cache l2 with
  | some rp => exact hg
  | none =>
    show cacheGet ((l2, s.next_raw) :: s.render_pass_cache) l = some o
    unfold cacheGet
    by_cases hl : l2 = l
    · subst hl
      rw [hc] at hg
      cases hg
    · rw [if_neg hl]
      exact hg

theorem fb_call_preserves_fb (s : VulkanDeviceCaches) (d1 d2 : VulkanFramebufferDesc) (o : Nat)
    (hg : cacheGet s.framebuffer_cache d1 = some o) :
    cacheGet (get_or_create_framebuffer s d2).2.framebuffer_cache d1 = some o := by
  unfold get_or_create_framebuffer
  cases hc : cacheGet s.framebuffer_cache d2 with
  | some fb => exact hg
  | none =>
    show cacheGet ((d2, s.next_raw) :: s.framebuffer_cache) d1 = some o
    unfold cacheGet
    by_cases hl : d2 = d1
    · subst hl
      rw [hc] at hg
      cases hg
    · rw [if_neg hl]
      exact hg

theorem fb_call_preserves_rp (s : VulkanDeviceCaches) (l : VulkanRenderPassOutput)
    (d2 : VulkanFramebufferDesc) (o : Nat)
    (hg : cacheGet s.render_pass_cache l = some o) :
    cacheGet (get_or_create_framebuffer s d2).2.render_pass_cache l = some o := by
  unfold get_or_create_framebuffer
  cases hc : cacheGet s.framebuffer_cache d2 with
  | some fb => exact hg
  | none => exact hg

theorem rp_call_preserves_fb (s : VulkanDeviceCaches) (d1 : VulkanFramebufferDesc)
    (l2 : VulkanRenderPassOutput) (o : Nat)
    (hg : cacheGet s.framebuffer_cache d1 = some o) :
    cacheGet (get_or_create_render_pass s l2).2.framebuffer_cache d1 = some o := by
  unfold get_or_create_render_pass
  cases hc : cacheGet s.render_pass_cache l2 with
  | some rp => exact hg
  | none => exact hg

theorem runCalls_preserves_rp (calls : List CacheCall) (s : VulkanDeviceCaches)
    (l : VulkanRenderPassOutput) (o : Nat)
    (hg : cacheGet s.render_pass_cache l = some o) :
    cacheGet (runCalls calls s).render_pass_cache l = some o := by
  induction calls generalizing s with
  | nil => exact hg
  | cons c rest ih =>
    cases c with
    | rp l2 => exact ih _ (rp_call_preserves_rp s l l2 o hg)
    | fb d2 => exact ih _ (fb_call_preserves_rp s l d2 o hg)

theorem runCalls_preserves_fb (calls : List CacheCall) (s : VulkanDeviceCaches)
    (d1 : VulkanFramebufferDesc) (o : Nat)
    (hg : cacheGet s.framebuffer_cache d1 = some o) :
    cacheGet (runCalls calls s).framebuffer_cache d1 = some o := by
  induction calls generalizing s with
  | nil => exact hg
  | cons c rest ih =>
    cases c with
    | rp l2 => exact ih _ (rp_call_preserves_fb s d1 l2 o hg)
    | fb d2 => exact ih _ (fb_call_preserves_fb s d1 d2 o hg)

/-- Claim C5: for each of the two structural caches, a miss creates the
backend object and inserts it under the descriptor; a hit returns the cached
object with the cache unchanged; and after a first get_or_create, every
later get_or_create with a structurally equal descriptor — after any
sequence of other cache calls — returns the identical backend object and
leaves the state unmodified. -/
theorem c5_structural_cache_dedup (s : VulkanDeviceCaches) (l : VulkanRenderPassOutput)
    (dsc : VulkanFramebufferDesc) (calls : List CacheCall) :
    (cacheGet s.render_pass_cache l = none →
      (get_or_create_render_pass s l).1 = s.next_raw ∧
      cacheGet (get_or_create_render_pass s l).2.render_pass_cache l = some s.next_raw) ∧
    (∀ o, cacheGet s.render_pass_cache l = some o →
      get_or_create_render_pass s l = (o, s)) ∧
    (∀ o1 s1, get_or_create_render_pass s l = (o1, s1) →
      get_or_create_render_pass (runCalls calls s1) l = (o1, runCalls calls s1)) ∧
    (cacheGet s.framebuffer_cache dsc = none →
      (get_or_create_framebuffer s dsc).1 = s.next_raw ∧
      cacheGet (get_or_create_framebuffer s dsc).2.framebuffer_cache dsc = some s.next_raw) ∧
    (∀ o, cacheGet s.framebuffer_cache dsc = some o →
      get_or_create_framebuffer s dsc = (o, s)) ∧
    (∀ o1 s1, get_or_create_framebuffer s dsc = (o1, s1) →
      get_or_create_framebuffer (runCalls calls s1) dsc = (o1, runCalls calls s1)) := by
  refine ⟨?_, ?_, ?_, ?_, ?_, ?_⟩
  · intro hmiss
    constructor
    · unfold get_or_create_render_pass
      rw [hmiss]
    · have := get_or_create_rp_lookup s l
      have hfst : (get_or_create_render_pass s l).1 = s.next_raw := by
        unfold get_or_create_render_pass
        rw [hmiss]
      rw [hfst] at this
      exact this
  · intro o hg
    exact get_or_create_rp_hit s l o hg
  · intro o1 s1 hcall
    have hlook : cacheGet s1.render_pass_cache l = some o1 := by
      have := get_or_create_rp_lookup s l
      rw [hcall] at this
      exact this
    exact get_or_create_rp_hit _ l o1 (runCalls_preserves_rp calls s1 l o1 hlook)
  · intro hmiss
    constructor
    · unfold get_or_create_framebuffer
      rw [hmiss]
    · have := get_or_create_fb_lookup s dsc
      have hfst : (get_or_create_framebuffer s dsc).1 = s.next_raw := by
        unfold get_or_create_framebuffer
        rw [hmiss]
      rw [hfst] at this
      exact this
  · intro o hg
    exact get_or_create_fb_hit s dsc o hg
  · intro o1 s1 hcall
    have hlook : cacheGet s1.framebuffer_cache dsc = some o1 := by
      have := get_or_create_fb_lookup s dsc
      rw [hcall] at this
      exact this
    exact get_or_create_fb_hit _ dsc o1 (runCalls_preserves_fb calls s1 dsc o1 hlook)

/-- Witness for C5 on the empty cache: the miss inserts rpd0 under id 0, and
a repeated call (after an intervening framebuffer call) returns the same
object unchanged. -/
theorem c5_structural_cache_dedup_witness :
    ((get_or_create_render_pass cache0 rpd0).1 = cache0.next_raw ∧
      cacheGet (get_or_create_render_pass cache0 rpd0).2.render_pass_cache rpd0 =
        some cache0.next_raw) ∧
    get_or_create_render_pass (runCalls [CacheCall.fb fbd0] cache1) rpd0 =
      (0, runCalls [CacheCall.fb fbd0] cache1) :=
  ⟨(c5_structural_cache_dedup cache0 rpd0 fbd0 []).1 rfl,
   (c5_structural_cache_dedup cache0 rpd0 fbd0 [CacheCall.fb fbd0]).2.2.1 0 cache1 (by decide)⟩

end Luxseed
